import Mathlib

/-!
Verification of the devdash-mcp screenshot / explorer tool pipeline.

This file gives a shallow embedding, in Lean 4, of the window directory,
window resolver, image-capture pipeline and explorer navigation validation
found in `src/tools/screenshot.py` and `src/tools/explorer.py`, and proves
the behavioural properties claimed for them.

Python strings are modelled as lists of characters (`PyStr`); external
command invocations are modelled by environments recording each command's
behaviour (executable missing, or ran with an exit code and output); Python
exceptions are modelled with `Except`.  Case lowering models `str.lower`
on ASCII data.
-/

/-- A Python string, as a sequence of characters. -/
abbrev PyStr := List Char

/-- A Python bytes object, as a sequence of byte values. -/
abbrev Bytes := List Nat

/-- Models Python `str.lower` (ASCII case mapping). -/
def pyLower (s : PyStr) : PyStr := s.map Char.toLower

/-- `startsWith n h` is true when `n` is an initial segment of `h`. -/
def startsWith : PyStr → PyStr → Bool
  | [], _ => true
  | _ :: _, [] => false
  | a :: as, b :: bs => a == b && startsWith as bs

/-- `containsSub n h` models the Python expression `n in h` on strings:
contiguous-substring containment. -/
def containsSub : PyStr → PyStr → Bool
  | n, [] => n.isEmpty
  | n, c :: t => startsWith n (c :: t) || containsSub n t

/-- A window record as produced by `_list_x11_windows` (the `x`/`y` keys are
present only on the wmctrl path). -/
structure Window where
  id : PyStr
  title : PyStr
  width : Int := 0
  height : Int := 0
  x : Option Int := none
  y : Option Int := none
deriving DecidableEq

/-- The two matching predicates of `_find_window_by_name`:
case-insensitive exact title equality. -/
def exactMatch (nameLower : PyStr) (w : Window) : Bool :=
  pyLower w.title == nameLower

/-- Case-insensitive substring containment of the query in the title. -/
def subMatch (nameLower : PyStr) (w : Window) : Bool :=
  containsSub nameLower (pyLower w.title)

/-- The matching core of `_find_window_by_name` (screenshot.py lines 77-89),
factored over the directory contents fetched at line 76: first a pass of
case-insensitive exact title matches, then a pass of case-insensitive
substring matches, each returning the first hit; `none` if both passes miss. -/
def _find_window_by_name_core (windows : List Window) (name : PyStr) : Option PyStr :=
  let nameLower := pyLower name
  match windows.find? (fun w => exactMatch nameLower w) with
  | some w => some w.id
  | none =>
    match windows.find? (fun w => subMatch nameLower w) with
    | some w => some w.id
    | none => none

-- Sanity checks on small inputs.
example :
    _find_window_by_name_core
      [⟨('a' :: ['b']), ('A' :: ['B']), 10, 10, none, none⟩]
      ('a' :: ['b']) = some ('a' :: ['b']) := by decide

example : _find_window_by_name_core [] ('a' :: []) = none := by decide

/-- Python exceptions the modelled code can raise. -/
inductive PyExn where
  | fileNotFoundError (exe : PyStr)
  | valueError
deriving DecidableEq

/-- Equality of modelled results is decidable, so concrete runs can be
checked by `decide`. -/
instance exceptDecEq {ε α : Type} [DecidableEq ε] [DecidableEq α] :
    DecidableEq (Except ε α) := fun a b =>
  match a, b with
  | .error x, .error y =>
    if h : x = y then .isTrue (congrArg Except.error h)
    else .isFalse (fun hc => h (by cases hc; rfl))
  | .ok x, .ok y =>
    if h : x = y then .isTrue (congrArg Except.ok h)
    else .isFalse (fun hc => h (by cases hc; rfl))
  | .error _, .ok _ => .isFalse (fun hc => by cases hc)
  | .ok _, .error _ => .isFalse (fun hc => by cases hc)

/-- Behaviour of an external command producing text on stdout: either the
executable is missing (`subprocess.run` raises `FileNotFoundError`), or it
ran with a return code and a stdout string. -/
inductive TextCmd where
  | missing
  | ran (returncode : Int) (stdout : PyStr)
deriving DecidableEq

/-- Whitespace recognised by Python `str.split()` / `str.strip()`
(ASCII subset). -/
def isPySpace (c : Char) : Bool :=
  c == ' ' || c == '\t' || c == '\n' || c == '\r' || c == '\x0b' || c == '\x0c'

/-- Models `str.strip()`. -/
def pyStrip (s : PyStr) : PyStr :=
  ((s.dropWhile isPySpace).reverse.dropWhile isPySpace).reverse

/-- Models `str.split("\n")`: split on newlines, keeping empty pieces. -/
def pySplitNl : PyStr → List PyStr
  | [] => [[]]
  | c :: cs =>
    if c = '\n' then [] :: pySplitNl cs
    else
      match pySplitNl cs with
      | h :: t => (c :: h) :: t
      | [] => [[c]]

/-- Models `str.split(None, maxsplit)`: split on whitespace runs, at most
`maxsplit` splits, leading whitespace dropped, the final remainder (after
the last split) kept verbatim. -/
def pySplitWs (maxsplit : Nat) (s : PyStr) : List PyStr :=
  let s' := s.dropWhile isPySpace
  if s'.isEmpty then []
  else
    match maxsplit with
    | 0 => [s']
    | m + 1 =>
      s'.takeWhile (fun c => !isPySpace c) ::
        pySplitWs m (s'.dropWhile (fun c => !isPySpace c))

/-- Value of a nonempty all-digit string; `ValueError` otherwise. -/
def digitsVal (ds : PyStr) : Except PyExn Nat :=
  if ds.isEmpty || !ds.all Char.isDigit then .error .valueError
  else .ok (ds.foldl (fun a c => a * 10 + (c.toNat - Char.toNat '0')) 0)

/-- Models Python `int(str)` (for inputs without underscore digit
separators): optional surrounding whitespace, optional sign, decimal
digits; anything else raises `ValueError`. -/
def pyInt (s : PyStr) : Except PyExn Int :=
  match pyStrip s with
  | '-' :: ds => (digitsVal ds).map (fun n => -(n : Int))
  | '+' :: ds => (digitsVal ds).map (fun n => (n : Int))
  | ds => (digitsVal ds).map (fun n => (n : Int))

/-- Models `_run_command` (screenshot.py lines 13-24): stdout and return
code of the command; a missing executable is caught and reported as an
error string with return code 1. -/
def _run_command (behavior : TextCmd) (cmd0 : PyStr) : PyStr × Int :=
  match behavior with
  | .ran rc out => (out, rc)
  | .missing => (("Error: Command not found: ".toList) ++ cmd0, 1)

/-- One line of `wmctrl -l -G` output (screenshot.py lines 35-47): empty
lines are skipped; the line is split on whitespace with maxsplit 7; lines
with at least 8 fields yield a window whose geometry fields go through
`int(...)` (which can raise `ValueError`); shorter lines are skipped. -/
def parseWmctrlLine (line : PyStr) : Except PyExn (Option Window) :=
  if line.isEmpty then .ok none
  else
    let parts := pySplitWs 7 line
    if 8 ≤ parts.length then do
      let w ← pyInt (parts.getD 4 [])
      let h ← pyInt (parts.getD 5 [])
      let x ← pyInt (parts.getD 2 [])
      let y ← pyInt (parts.getD 3 [])
      pure (some ⟨parts.getD 0 [], parts.getD 7 [], w, h, some x, some y⟩)
    else .ok none

/-- The wmctrl branch of `_list_x11_windows` (lines 33-48): strip stdout,
split into lines, parse each line, accumulating windows in order.  No size
filter is applied on this path. -/
def parseWmctrl (stdout : PyStr) : Except PyExn (List Window) :=
  (pySplitNl (pyStrip stdout)).foldlM
    (fun acc line => do
      match ← parseWmctrlLine line with
      | some w => pure (acc ++ [w])
      | none => pure acc)
    []

/-- The character class `[0-9a-f]`. -/
def isHexLower (c : Char) : Bool :=
  c.isDigit || ('a' ≤ c && c ≤ 'f')

/-- Numeric value of a digit string. -/
def digitsToNat (ds : PyStr) : Nat :=
  ds.foldl (fun a c => a * 10 + (c.toNat - Char.toNat '0')) 0

/-- Match of `(\d+)x(\d+)` at the head of the input, with the greedy `\d+`
semantics: the first digit run must be maximal and immediately followed by
`x` and at least one digit. -/
def tryDims (l : PyStr) : Option (Nat × Nat) :=
  let d1 := l.takeWhile Char.isDigit
  if d1.isEmpty then none
  else
    match l.dropWhile Char.isDigit with
    | 'x' :: r =>
      let d2 := r.takeWhile Char.isDigit
      if d2.isEmpty then none else some (digitsToNat d1, digitsToNat d2)
    | _ => none

/-- Leftmost occurrence of `(\d+)x(\d+)`, as the lazy `.*?` finds it. -/
def findDims : PyStr → Option (Nat × Nat)
  | [] => none
  | c :: cs =>
    match tryDims (c :: cs) with
    | some wh => some wh
    | none => findDims cs

/-- Per-line match of the xwininfo pattern
`^\s+(0x[0-9a-f]+)\s+"([^"]+)".*?(\d+)x(\d+)` (line 56), specialised to
this fixed pattern: leading whitespace, a lowercase-hex window id, more
whitespace, a nonempty quoted title, then the leftmost `WxH` digit pair
anywhere in the remainder. -/
def matchXLine (line : PyStr) : Option (PyStr × PyStr × Nat × Nat) :=
  if (line.takeWhile isPySpace).isEmpty then none
  else
    match line.dropWhile isPySpace with
    | '0' :: 'x' :: rest =>
      let hex := rest.takeWhile isHexLower
      if hex.isEmpty then none
      else
        let r2 := rest.dropWhile isHexLower
        if (r2.takeWhile isPySpace).isEmpty then none
        else
          match r2.dropWhile isPySpace with
          | '"' :: r3 =>
            let title := r3.takeWhile (fun c => c ≠ '"')
            if title.isEmpty then none
            else
              match r3.dropWhile (fun c => c ≠ '"') with
              | '"' :: r4 =>
                match findDims r4 with
                | some (w, h) => some (('0' :: 'x' :: hex), title, w, h)
                | none => none
              | _ => none
          | _ => none
    | _ => none

/-- Windows contributed by one xwininfo line, applying the trivial-window
filter `width > 100 and height > 100` (lines 57-69). -/
def xLineWindows (line : PyStr) : List Window :=
  match matchXLine line with
  | some (id, title, w, h) =>
    if 100 < w && 100 < h then [⟨id, title, (w : Int), (h : Int), none, none⟩]
    else []
  | none => []

/-- The xwininfo branch parse (lines 55-69): each line contributes its
windows in order. -/
def parseXwininfo (stdout : PyStr) : List Window :=
  ((pySplitNl stdout).map xLineWindows).flatten

/-- Name of the primary window-listing command. -/
def wmctrlStr : PyStr := "wmctrl".toList

/-- Name of the fallback window-listing command. -/
def xwininfoStr : PyStr := "xwininfo".toList

/-- Behaviours of the two external window-listing commands. -/
structure ListEnv where
  wmctrl : TextCmd
  xwininfo : TextCmd

/-- Models `_list_x11_windows` (lines 27-71): try wmctrl first; on any
wmctrl failure (missing executable or non-zero exit, both surfaced by
`_run_command` as a non-zero code) fall back to xwininfo; when both fail,
return the empty list rather than an error. -/
def _list_x11_windows (env : ListEnv) : Except PyExn (List Window) :=
  let p := _run_command env.wmctrl wmctrlStr
  if p.2 = 0 then parseWmctrl p.1
  else
    let q := _run_command env.xwininfo xwininfoStr
    if q.2 ≠ 0 then .ok []
    else .ok (parseXwininfo q.1)

/-- Models `_find_window_by_name` (lines 74-89): fetch the directory, then
run the two-pass matching core on it. -/
def _find_window_by_name (env : ListEnv) (name : PyStr) :
    Except PyExn (Option PyStr) :=
  (_list_x11_windows env).map (fun ws => _find_window_by_name_core ws name)

/-- Behaviour of an external command exchanging PNG bytes on its
standard streams. -/
inductive ByteCmd where
  | missing
  | ran (returncode : Int) (stdout : Bytes)
deriving DecidableEq

/-- External-command invocations attempted by the capture pipeline. -/
inductive Call where
  | importCmd (windowId : PyStr)
  | convertCmd (args : List PyStr)
  | scrotCmd
deriving DecidableEq

/-- Behaviours of the external capture and transform commands.
`runImport` is the behaviour of `import -window <id> png:-` per window id;
`runConvert` that of `convert` per argument list and stdin bytes;
`scrotWrites` is what scrot puts into the target file (`none` when it
writes nothing, leaving the pre-created file empty). -/
structure CaptureEnv where
  runImport : PyStr → ByteCmd
  runConvert : List PyStr → Bytes → ByteCmd
  scrotMissing : Bool
  scrotWrites : Option Bytes

/-- Trace of a `_capture_window` call: which external commands were
attempted, whether the scrot fallback created its temporary file, and
whether that file is still on disk after the call returns or unwinds. -/
structure CaptureTrace where
  calls : List Call
  tmpCreated : Bool
  tmpOnDisk : Bool
deriving DecidableEq

/-- Name of the primary capture command (ImageMagick). -/
def importStr : PyStr := "import".toList

/-- Name of the transform command. -/
def convertStr : PyStr := "convert".toList

/-- Name of the fallback capture command. -/
def scrotStr : PyStr := "scrot".toList

/-- Decimal rendering of an integer, for the percent arguments. -/
def intToStr (i : Int) : PyStr :=
  if i < 0 then '-' :: Nat.toDigits 10 i.natAbs else Nat.toDigits 10 i.natAbs

/-- Python `int()` truncation toward zero, on the rationals standing in
for Python floats. -/
def pyTruncInt (q : ℚ) : Int :=
  if 0 ≤ q then ⌊q⌋ else ⌈q⌉

/-- `convert` arguments of the left-edge crop step (lines 119-127). -/
def leftCropArgs (cropLeft : ℚ) : List PyStr :=
  let p := intToStr (pyTruncInt (cropLeft * 100))
  [convertStr, "png:-".toList, "-gravity".toList, "West".toList,
   "-crop".toList, p ++ ("%x100%+0+0".toList), "+repage".toList,
   "png:-".toList]

/-- `convert` arguments of the center crop step (lines 137-145). -/
def centerCropArgs (cropCenter : ℚ) : List PyStr :=
  let p := intToStr (pyTruncInt (cropCenter * 100))
  [convertStr, "png:-".toList, "-gravity".toList, "center".toList,
   "-crop".toList, p ++ ("%x".toList) ++ p ++ ("%+0+0".toList),
   "+repage".toList, "png:-".toList]

/-- `convert` arguments of the resize step (line 157). -/
def resizeArgs (scale : ℚ) : List PyStr :=
  [convertStr, "png:-".toList, "-resize".toList,
   intToStr (pyTruncInt (scale * 100)) ++ ("%".toList), "png:-".toList]

/-- One crop invocation (the pattern at lines 120-133 and 138-151): run
`convert` on the current bytes; on exit 0 its output replaces the data; on
a non-zero exit the data is kept unchanged; a missing executable raises
`FileNotFoundError`. -/
def convertStep (env : CaptureEnv) (args : List PyStr) (data : Bytes) :
    Except PyExn Bytes × List Call :=
  match env.runConvert args data with
  | .missing => (.error (.fileNotFoundError convertStr), [.convertCmd args])
  | .ran rc out => (.ok (if rc = 0 then out else data), [.convertCmd args])

/-- Models `_capture_window` (screenshot.py lines 92-179).  The primary
`import` capture streams PNG bytes; on exit 0 the three optional transform
steps run in order (left crop, center crop, resize), each skipped when its
parameter is absent or at its identity value and each passing the data
through unchanged when its `convert` run exits non-zero.  On a non-zero
`import` exit the scrot fallback creates a temporary file (via
NamedTemporaryFile(delete=False)), runs scrot over it, reads it back and
unlinks it.  `subprocess.run` is invoked without any exception handler in
this function, so a missing executable raises `FileNotFoundError` out of
the call; in the scrot case this happens after the temporary file was
created, which then stays on disk.  Since NamedTemporaryFile created the
temp path and scrot does not remove it, the `tmp_file.exists()` test at
line 174 is true and the `return None` at line 179 is unreachable. -/
def _capture_window (env : CaptureEnv) (window_id : PyStr) (scale : ℚ := 1)
    (crop_center : Option ℚ := none) (crop_left : Option ℚ := none) :
    Except PyExn (Option Bytes) × CaptureTrace :=
  match env.runImport window_id with
  | .missing =>
    (.error (.fileNotFoundError importStr),
     ⟨[.importCmd window_id], false, false⟩)
  | .ran rc out =>
    if rc = 0 then
      let s1 :=
        match crop_left with
        | some cl =>
          if cl < 1 then convertStep env (leftCropArgs cl) out
          else (.ok out, [])
        | none => (.ok out, [])
      match s1 with
      | (.error e, c1) =>
        (.error e, ⟨.importCmd window_id :: c1, false, false⟩)
      | (.ok d1, c1) =>
        let s2 :=
          match crop_center with
          | some cc =>
            if cc < 1 then convertStep env (centerCropArgs cc) d1
            else (.ok d1, [])
          | none => (.ok d1, [])
        match s2 with
        | (.error e, c2) =>
          (.error e, ⟨.importCmd window_id :: (c1 ++ c2), false, false⟩)
        | (.ok d2, c2) =>
          if scale < 1 then
            match env.runConvert (resizeArgs scale) d2 with
            | .missing =>
              (.error (.fileNotFoundError convertStr),
               ⟨.importCmd window_id ::
                  (c1 ++ c2 ++ [.convertCmd (resizeArgs scale)]),
                false, false⟩)
            | .ran rc3 out3 =>
              (.ok (some (if rc3 = 0 then out3 else d2)),
               ⟨.importCmd window_id ::
                  (c1 ++ c2 ++ [.convertCmd (resizeArgs scale)]),
                false, false⟩)
          else
            (.ok (some d2),
             ⟨.importCmd window_id :: (c1 ++ c2), false, false⟩)
    else
      if env.scrotMissing then
        (.error (.fileNotFoundError scrotStr),
         ⟨[.importCmd window_id, .scrotCmd], true, true⟩)
      else
        (.ok (some (env.scrotWrites.getD [])),
         ⟨[.importCmd window_id, .scrotCmd], true, false⟩)

/-- Keywords for filtering DevDash-related windows (line 183). -/
def DEVDASH_KEYWORDS : List PyStr :=
  ["gauge".toList, "explorer".toList, "devdash".toList, "qml".toList,
   "cluster".toList, "headunit".toList]

/-- The filter used by `screenshot_list_windows` and by the not-found
branch of `_internal_capture`: some keyword occurs in the lowercased
title. -/
def keywordMatch (w : Window) : Bool :=
  DEVDASH_KEYWORDS.any (fun kw => containsSub kw (pyLower w.title))

/-- The value returned by the `screenshot_list_windows` tool. -/
structure ListWindowsResult where
  windows : List Window
  count : Nat
deriving DecidableEq

/-- Models the `screenshot_list_windows` tool (lines 189-211): the
directory filtered by the DevDash keywords, together with the count of the
filtered list. -/
def screenshot_list_windows (env : ListEnv) : Except PyExn ListWindowsResult :=
  (_list_x11_windows env).map (fun ws =>
    let filtered := ws.filter keywordMatch
    ⟨filtered, filtered.length⟩)

/-- Python truthiness test `not x` on an optional string. -/
def pyFalsyStr : Option PyStr → Bool
  | none => true
  | some s => s.isEmpty

/-- Python truthiness test `not x` on optional bytes. -/
def pyFalsyBytes : Option Bytes → Bool
  | none => true
  | some b => b.isEmpty

/-- Structured results returned by `_internal_capture`.  A success carries
the PNG bytes (the Python code returns them base64-encoded, a bijective
re-encoding not modelled) and the resolved window id. -/
inductive ToolResult where
  | errorResult (error : PyStr) (available : Option (List PyStr))
  | success (image : Bytes) (window_id : PyStr)
deriving DecidableEq

/-- The window-not-found message (line 230). -/
def notFoundMsg (window : PyStr) : PyStr :=
  ("Window '".toList) ++ window ++ ("' not found".toList)

/-- The capture-failed message (lines 243-244). -/
def captureFailMsg (window window_id : PyStr) : PyStr :=
  ("Failed to capture screenshot of '".toList) ++ window
    ++ ("' (ID: ".toList) ++ window_id
    ++ ("). Make sure 'import' (ImageMagick) or 'scrot' is installed.".toList)

/-- Models `_internal_capture` (lines 213-253): resolve the window name; a
falsy id (None or empty) yields the not-found result with the
keyword-filtered titles re-listed; otherwise capture, mapping falsy bytes
to the capture-failed result and anything else to a success result.
Exceptions escaping `_find_window_by_name` or `_capture_window` are not
caught here and propagate out of the tool body. -/
def _internal_capture (lenv : ListEnv) (cenv : CaptureEnv) (window : PyStr)
    (scale : ℚ) (crop_left : Option ℚ := none)
    (crop_center : Option ℚ := none) : Except PyExn ToolResult :=
  match _find_window_by_name lenv window with
  | .error e => .error e
  | .ok wopt =>
    if pyFalsyStr wopt then
      match _list_x11_windows lenv with
      | .error e => .error e
      | .ok ws =>
        .ok (.errorResult (notFoundMsg window)
          (some ((ws.filter keywordMatch).map Window.title)))
    else
      let window_id := wopt.getD []
      match (_capture_window cenv window_id scale crop_center crop_left).1 with
      | .error e => .error e
      | .ok data =>
        if pyFalsyBytes data then
          .ok (.errorResult (captureFailMsg window window_id) none)
        else .ok (.success (data.getD []) window_id)

/-- Valid component pages in the explorer (explorer.py lines 55-73). -/
def EXPLORER_PAGES : List PyStr :=
  ["Welcome".toList, "GaugeArc".toList, "GaugeBezel".toList,
   "GaugeCenterCap".toList, "GaugeFace".toList, "GaugeTick".toList,
   "GaugeTickLabel".toList, "Bezel3D".toList, "CenterCap3D".toList,
   "DigitalReadout".toList, "GaugeNeedle".toList, "GaugeTickRing".toList,
   "GaugeValueArc".toList, "GaugeZoneArc".toList,
   "RollingDigitReadout".toList, "RadialGauge".toList,
   "RadialGauge3D".toList]

/-- The JSON request `{"action": "navigate", "page": page}`. -/
structure NavRequest where
  action : PyStr
  page : PyStr
deriving DecidableEq

/-- Result of `qml_explorer_navigate`: either the local validation
failure, produced with no transport involvement, or whatever the
transport returned. -/
inductive NavOutcome (α : Type) where
  | localFailure (error : PyStr)
  | remote (reply : α)
deriving DecidableEq

/-- The invalid-page message (line 149), which names the valid choices by
joining `EXPLORER_PAGES` with commas. -/
def invalidPageMsg (page : PyStr) : PyStr :=
  ("Invalid page '".toList) ++ page ++ ("'. Valid pages: ".toList)
    ++ (EXPLORER_PAGES.intersperse (", ".toList)).flatten

/-- The navigate action name. -/
def navigateStr : PyStr := "navigate".toList

/-- Models the `qml_explorer_navigate` tool (lines 133-151), with the
`_send_request` transport abstracted as `send`: a page outside the
allow-list short-circuits with the local failure before any transport
use; a valid page forwards the navigate request through the transport. -/
def qml_explorer_navigate {α : Type} (send : NavRequest → α) (page : PyStr) :
    NavOutcome α :=
  if !EXPLORER_PAGES.contains page then .localFailure (invalidPageMsg page)
  else .remote (send ⟨navigateStr, page⟩)

/-! ## Concrete inputs used by witnesses and counterexamples -/

/-- Concrete window used by witnesses: an exact-title match target. -/
def wFoo : Window := ⟨"0xa".toList, "Foo".toList, 200, 200, none, none⟩

/-- Concrete window used by witnesses. -/
def wBar : Window := ⟨"0xb".toList, "Bar".toList, 300, 300, none, none⟩

/-- A wmctrl output line describing a large DevDash window. -/
def wmctrlLineBig : PyStr :=
  "0x2c00007 0 5 6 1920 720 host DevDash Cluster".toList

/-- The window parsed from `wmctrlLineBig`. -/
def wCluster : Window :=
  ⟨"0x2c00007".toList, "DevDash Cluster".toList, 1920, 720, some 5, some 6⟩

/-- A wmctrl output line describing a 10x11 window: kept by the primary
parse, which applies no size filter. -/
def wmctrlLineTiny : PyStr := "0xb 0 1 2 10 11 host tinywin".toList

/-- The window parsed from `wmctrlLineTiny`. -/
def wTiny : Window :=
  ⟨"0xb".toList, "tinywin".toList, 10, 11, some 1, some 2⟩

/-- An xwininfo output line describing the same 10x11 window: dropped by
the fallback parse's size filter. -/
def xwininfoLineTiny : PyStr := "  0xb \"tinywin\"  10x11+0+0".toList

/-- An xwininfo output line describing a large window. -/
def xwininfoLineBig : PyStr :=
  "  0x2c00007 \"DevDash Cluster\"  1920x720+0+0".toList

/-- Listing environment where wmctrl succeeds with one DevDash window. -/
def lenvPrimary : ListEnv := ⟨.ran 0 wmctrlLineBig, .ran 0 []⟩

/-- Listing environment where wmctrl is missing and xwininfo succeeds. -/
def lenvFallback : ListEnv := ⟨.missing, .ran 0 xwininfoLineBig⟩

/-- Listing environment where wmctrl exits non-zero and xwininfo is
missing. -/
def lenvBothFail : ListEnv := ⟨.ran 1 [], .missing⟩

/-- Capture environment whose primary capture succeeds; the transform and
fallback commands are absent, demonstrating they are never consulted on
the identity path. -/
def envOnlyPrimary : CaptureEnv :=
  ⟨fun _ => .ran 0 [9, 8], fun _ _ => .missing, true, none⟩

/-- Capture environment where the `import` executable is missing while
scrot is present and would produce bytes. -/
def envImportMissing : CaptureEnv :=
  ⟨fun _ => .missing, fun _ _ => .ran 0 [], false, some [1, 2, 3]⟩

/-- Capture environment where `import` exits non-zero and the scrot
executable is missing. -/
def envScrotMissing : CaptureEnv :=
  ⟨fun _ => .ran 1 [], fun _ _ => .ran 0 [], true, none⟩

/-- Capture environment where `import` exits non-zero and scrot runs,
writing two bytes into the temporary file. -/
def envScrotOk : CaptureEnv :=
  ⟨fun _ => .ran 1 [], fun _ _ => .ran 0 [], false, some [7, 7]⟩

/-- Capture environment where `import` succeeds and the `convert`
executable is missing. -/
def envConvMissing : CaptureEnv :=
  ⟨fun _ => .ran 0 [1], fun _ _ => .missing, false, none⟩

/-- Capture environment where `import` succeeds and every `convert`
invocation exits non-zero. -/
def envConvFails : CaptureEnv :=
  ⟨fun _ => .ran 0 [5], fun _ _ => .ran 1 [], false, none⟩

/-- Capture environment where both capture utilities fail hard:
`import` exits non-zero and scrot is missing. -/
def envCapFail : CaptureEnv :=
  ⟨fun _ => .ran 1 [], fun _ _ => .ran 2 [], true, none⟩

/-- A window-listing command behaviour counts as failed when the
executable is missing or the run exited non-zero. -/
def cmdFailed (c : TextCmd) : Prop :=
  c = .missing ∨ ∃ rc out, c = .ran rc out ∧ rc ≠ 0

/-! ## Helper lemmas -/

/-- `find?` returns the element at the first index satisfying the
predicate. -/
theorem find_at_first_index {α : Type} (p : α → Bool) (l : List α)
    (i : Nat) (hi : i < l.length) (hp : p (l.get ⟨i, hi⟩) = true)
    (hmin : ∀ j (hj : j < l.length), j < i → p (l.get ⟨j, hj⟩) = false) :
    l.find? p = some (l.get ⟨i, hi⟩) := by
  induction l generalizing i with
  | nil => exact absurd hi (by simp)
  | cons a t ih =>
    cases i with
    | zero =>
      exact List.find?_cons_of_pos t hp
    | succ n =>
      have ha : p a = false := hmin 0 (by simp) (Nat.succ_pos n)
      rw [List.find?_cons_of_neg t (by simp [ha])]
      exact ih n (Nat.lt_of_succ_lt_succ hi) hp
        (fun j hj hlt =>
          hmin (j + 1) (by simpa using Nat.succ_lt_succ hj)
            (Nat.succ_lt_succ hlt))

/-- When some member satisfies the predicate, `find?` yields a member
satisfying it. -/
theorem find_of_mem_sat {α : Type} {p : α → Bool} {l : List α} {a : α}
    (ha : a ∈ l) (hp : p a = true) :
    ∃ b, l.find? p = some b ∧ b ∈ l ∧ p b = true := by
  induction l with
  | nil => simp at ha
  | cons c t ih =>
    by_cases hc : p c = true
    · exact ⟨c, List.find?_cons_of_pos t hc, List.mem_cons_self c t, hc⟩
    · have : a ∈ t := by
        cases List.mem_cons.mp ha with
        | inl h => exact absurd (h ▸ hp) hc
        | inr h => exact h
      obtain ⟨b, hb, hbm, hbp⟩ := ih this
      exact ⟨b, by rw [List.find?_cons_of_neg t (by simpa using hc)]; exact hb,
        List.mem_cons_of_mem c hbm, hbp⟩

/-- The empty needle is contained in every haystack (Python `"" in s`). -/
theorem containsSub_nil (h : PyStr) : containsSub [] h = true := by
  cases h <;> simp [containsSub, startsWith]

/-- Containment is preserved when text is prepended to the haystack. -/
theorem containsSub_append_left (n pre h : PyStr)
    (hc : containsSub n h = true) : containsSub n (pre ++ h) = true := by
  induction pre with
  | nil => simpa using hc
  | cons c t ih => simp [containsSub, ih]

/-! ## Claims about the window resolver -/

/-- Claim C3: for every name pattern and window directory, the resolver
first scans in order for a case-insensitive exact title match and returns
the first matching window's id; only if no exact match exists does it scan
again for a case-insensitive substring match, returning the first matching
id; if no title equals or contains the pattern case-insensitively it
returns none. -/
theorem c3_resolve_two_pass_policy (windows : List Window) (name : PyStr) :
    (∀ i (hi : i < windows.length),
        exactMatch (pyLower name) (windows.get ⟨i, hi⟩) = true →
        (∀ j (hj : j < windows.length), j < i →
            exactMatch (pyLower name) (windows.get ⟨j, hj⟩) = false) →
        _find_window_by_name_core windows name
          = some (windows.get ⟨i, hi⟩).id)
    ∧ ((∀ w ∈ windows, exactMatch (pyLower name) w = false) →
        ∀ i (hi : i < windows.length),
          subMatch (pyLower name) (windows.get ⟨i, hi⟩) = true →
          (∀ j (hj : j < windows.length), j < i →
              subMatch (pyLower name) (windows.get ⟨j, hj⟩) = false) →
          _find_window_by_name_core windows name
            = some (windows.get ⟨i, hi⟩).id)
    ∧ ((∀ w ∈ windows,
          exactMatch (pyLower name) w = false
            ∧ subMatch (pyLower name) w = false) →
        _find_window_by_name_core windows name = none) := by
  refine ⟨?_, ?_, ?_⟩
  · intro i hi hp hmin
    have := find_at_first_index (fun w => exactMatch (pyLower name) w)
      windows i hi hp hmin
    simp [_find_window_by_name_core, this]
  · intro hnone i hi hp hmin
    have h1 : windows.find? (fun w => exactMatch (pyLower name) w) = none :=
      List.find?_eq_none.mpr (fun w hw => by simp [hnone w hw])
    have h2 := find_at_first_index (fun w => subMatch (pyLower name) w)
      windows i hi hp hmin
    simp [_find_window_by_name_core, h1, h2]
  · intro hnone
    have h1 : windows.find? (fun w => exactMatch (pyLower name) w) = none :=
      List.find?_eq_none.mpr (fun w hw => by simp [(hnone w hw).1])
    have h2 : windows.find? (fun w => subMatch (pyLower name) w) = none :=
      List.find?_eq_none.mpr (fun w hw => by simp [(hnone w hw).2])
    simp [_find_window_by_name_core, h1, h2]

/-- Witness for C3: in a directory [Foo, Bar], the pattern "bar" matches
window 1 exactly (case-insensitively) and no earlier window does, so the
resolver returns Bar's id. -/
theorem c3_resolve_two_pass_policy_witness :
    _find_window_by_name_core [wFoo, wBar] ("bar".toList)
      = some (([wFoo, wBar].get ⟨1, by decide⟩).id) :=
  (c3_resolve_two_pass_policy [wFoo, wBar] ("bar".toList)).1 1 (by decide)
    (by decide)
    (fun j hj hlt => by
      have hj0 : j = 0 := Nat.lt_one_iff.mp hlt
      subst hj0
      exact (by decide : exactMatch (pyLower ("bar".toList)) wFoo = false))

/-- Claim C8: any directory containing a window titled exactly T resolves
pattern T to the id of a window whose lowercased title equals lowercased
T, whatever else the directory contains. -/
theorem c8_exact_title_resolves (windows : List Window) (T : PyStr)
    (h : ∃ w ∈ windows, w.title = T) :
    ∃ w ∈ windows, pyLower w.title = pyLower T ∧
      _find_window_by_name_core windows T = some w.id := by
  obtain ⟨w0, hw0, ht⟩ := h
  have hp : exactMatch (pyLower T) w0 = true := by simp [exactMatch, ht]
  obtain ⟨b, hfind, hbmem, hpb⟩ :=
    find_of_mem_sat (p := fun w => exactMatch (pyLower T) w) hw0 hp
  refine ⟨b, hbmem, by simpa [exactMatch] using hpb, ?_⟩
  simp [_find_window_by_name_core, hfind]

/-- Witness for C8 at the directory [Foo, Bar] and title "Bar". -/
theorem c8_exact_title_resolves_witness :
    ∃ w ∈ [wFoo, wBar], pyLower w.title = pyLower ("Bar".toList) ∧
      _find_window_by_name_core [wFoo, wBar] ("Bar".toList) = some w.id :=
  c8_exact_title_resolves [wFoo, wBar] ("Bar".toList)
    ⟨wBar, by decide, by decide⟩

/-- Claim C9 (implicit): on a nonempty directory the resolver never
returns not-found for the empty pattern, and when no title is empty the
first window in directory order is returned. -/
theorem c9_empty_pattern_resolves_first (windows : List Window)
    (h : windows ≠ []) :
    (_find_window_by_name_core windows []).isSome = true
    ∧ ((∀ w ∈ windows, w.title ≠ []) →
        _find_window_by_name_core windows [] = some (windows.head h).id) := by
  cases windows with
  | nil => exact absurd rfl h
  | cons a t =>
    constructor
    · cases hf : (a :: t).find? (fun w => exactMatch (pyLower []) w) with
      | some w => simp [_find_window_by_name_core, hf]
      | none =>
        have hsub : subMatch (pyLower []) a = true := by
          simp [subMatch, pyLower, containsSub_nil]
        simp [_find_window_by_name_core, hf,
          List.find?_cons_of_pos t hsub]
    · intro hne
      have h1 : (a :: t).find? (fun w => exactMatch (pyLower []) w) = none := by
        refine List.find?_eq_none.mpr (fun w hw => ?_)
        have : w.title ≠ [] := hne w hw
        cases hti : w.title with
        | nil => exact absurd hti this
        | cons c cs => simp [exactMatch, pyLower, hti]
      have hsub : subMatch (pyLower []) a = true := by
        simp [subMatch, pyLower, containsSub_nil]
      simp [_find_window_by_name_core, h1, List.find?_cons_of_pos t hsub,
        List.head]

/-- Witness for C9 at the directory [Foo, Bar]. -/
theorem c9_empty_pattern_resolves_first_witness :
    (_find_window_by_name_core [wFoo, wBar] []).isSome = true
    ∧ _find_window_by_name_core [wFoo, wBar] [] = some wFoo.id :=
  ⟨(c9_empty_pattern_resolves_first [wFoo, wBar] (by decide)).1,
   (c9_empty_pattern_resolves_first [wFoo, wBar] (by decide)).2
     (by decide)⟩

/-- Claim C10 (implicit): the window-listing tool returns exactly the
directory windows whose lowercased title contains one of the fixed
DevDash keywords, with a count field equal to the filtered list's
length. -/
theorem c10_list_tool_keyword_filter (env : ListEnv) (ws : List Window)
    (h : _list_x11_windows env = .ok ws) :
    ∃ r, screenshot_list_windows env = .ok r ∧
      (∀ w, w ∈ r.windows ↔ w ∈ ws ∧ keywordMatch w = true) ∧
      r.count = r.windows.length ∧
      (∀ w, keywordMatch w = true ↔
        ∃ kw ∈ DEVDASH_KEYWORDS, containsSub kw (pyLower w.title) = true) := by
  refine ⟨⟨ws.filter keywordMatch, (ws.filter keywordMatch).length⟩,
    ?_, ?_, rfl, ?_⟩
  · simp only [screenshot_list_windows, h]; rfl
  · intro w; simp [List.mem_filter]
  · intro w; simp [keywordMatch, List.any_eq_true]

/-- Witness for C10 on a concrete directory produced through wmctrl. -/
theorem c10_list_tool_keyword_filter_witness :
    ∃ r, screenshot_list_windows lenvPrimary = .ok r ∧
      (∀ w, w ∈ r.windows ↔ w ∈ [wCluster] ∧ keywordMatch w = true) ∧
      r.count = r.windows.length ∧
      (∀ w, keywordMatch w = true ↔
        ∃ kw ∈ DEVDASH_KEYWORDS, containsSub kw (pyLower w.title) = true) :=
  c10_list_tool_keyword_filter lenvPrimary [wCluster] (by decide)

/-! ## Claims about the window directory -/

/-- Every window kept by an xwininfo line passes the size filter. -/
theorem xLineWindows_size {w : Window} {line : PyStr}
    (h : w ∈ xLineWindows line) : 100 < w.width ∧ 100 < w.height := by
  unfold xLineWindows at h
  split at h
  · split at h
    · simp only [List.mem_singleton] at h
      subst h
      rename_i hc
      simp only [Bool.and_eq_true, decide_eq_true_eq] at hc
      dsimp only
      exact ⟨by exact_mod_cast hc.1, by exact_mod_cast hc.2⟩
    · simp at h
  · simp at h

/-- Every window produced by the fallback parse passes the size filter. -/
theorem parseXwininfo_size {w : Window} {stdout : PyStr}
    (h : w ∈ parseXwininfo stdout) : 100 < w.width ∧ 100 < w.height := by
  unfold parseXwininfo at h
  obtain ⟨l, hl, hwl⟩ := List.mem_flatten.mp h
  obtain ⟨line, _, rfl⟩ := List.mem_map.mp hl
  exact xLineWindows_size hwl

/-- Claim C6: the directory parses the primary command's output with no
size filter; when the primary command is missing or exits non-zero it
parses the secondary command's output, keeping only windows with width
and height above 100; when both commands fail it returns the empty list
rather than an error.  The last two conjuncts exhibit a 10x11 window kept
by the primary parse and dropped by the fallback parse. -/
theorem c6_list_windows_fallback_policy :
    (∀ env out, env.wmctrl = .ran 0 out →
        _list_x11_windows env = parseWmctrl out)
    ∧ (∀ env out, cmdFailed env.wmctrl → env.xwininfo = .ran 0 out →
        _list_x11_windows env = .ok (parseXwininfo out)
        ∧ ∀ w ∈ parseXwininfo out, 100 < w.width ∧ 100 < w.height)
    ∧ (∀ env, cmdFailed env.wmctrl → cmdFailed env.xwininfo →
        _list_x11_windows env = .ok [])
    ∧ parseWmctrl wmctrlLineTiny = .ok [wTiny]
    ∧ parseXwininfo xwininfoLineTiny = [] := by
  refine ⟨?_, ?_, ?_, by decide, by decide⟩
  · intro env out h
    simp [_list_x11_windows, _run_command, h]
  · intro env out hw hx
    refine ⟨?_, fun w hwmem => parseXwininfo_size hwmem⟩
    rcases hw with h | ⟨rc, o, h, hrc⟩
    · simp [_list_x11_windows, _run_command, h, hx]
    · simp [_list_x11_windows, _run_command, h, hx, hrc]
  · intro env hw hx
    rcases hw with h | ⟨rc, o, h, hrc⟩ <;>
      rcases hx with h2 | ⟨rc2, o2, h2, hrc2⟩ <;>
        simp [_list_x11_windows, _run_command, h, h2, *]

/-- Witness for C6 exercising all three hypothesis-bearing conjuncts on
concrete environments. -/
theorem c6_list_windows_fallback_policy_witness :
    _list_x11_windows lenvPrimary = parseWmctrl wmctrlLineBig
    ∧ _list_x11_windows lenvFallback = .ok (parseXwininfo xwininfoLineBig)
    ∧ _list_x11_windows lenvBothFail = .ok [] :=
  ⟨c6_list_windows_fallback_policy.1 lenvPrimary wmctrlLineBig rfl,
   (c6_list_windows_fallback_policy.2.1 lenvFallback xwininfoLineBig
      (Or.inl rfl) rfl).1,
   c6_list_windows_fallback_policy.2.2.1 lenvBothFail
     (Or.inr ⟨1, [], rfl, by decide⟩) (Or.inl rfl)⟩

/-! ## Claims about the capture pipeline -/

/-- Claim C4: with scale 1.0 and no crop arguments, a successful primary
capture returns exactly the raw `import` output, and the call trace shows
that no transform (and no fallback) command was invoked. -/
theorem c4_identity_passthrough (env : CaptureEnv) (wid : PyStr)
    (out : Bytes) (h : env.runImport wid = .ran 0 out) :
    _capture_window env wid 1 none none
      = (.ok (some out), ⟨[.importCmd wid], false, false⟩) := by
  simp [_capture_window, h]

/-- Witness for C4: the identity pipeline on an environment where the
transform and fallback executables are absent, which shows they are
never consulted. -/
theorem c4_identity_passthrough_witness :
    _capture_window envOnlyPrimary ("0x1".toList) 1 none none
      = (.ok (some [9, 8]), ⟨[.importCmd ("0x1".toList)], false, false⟩) :=
  c4_identity_passthrough envOnlyPrimary ("0x1".toList) [9, 8] rfl

/-- Counterexample to C5 as stated: a transform invocation can also fail
because the `convert` executable is missing, and then the step is not
skipped - the whole capture fails with a raised `FileNotFoundError`. -/
theorem c5_missing_convert_exe_fails_capture :
    (_capture_window envConvMissing ("0x1".toList) 1 none (some (3/5))).1
      = .error (.fileNotFoundError convertStr) := by
  have h35 : ((3 : ℚ)/5) < 1 := by norm_num
  simp [_capture_window, envConvMissing, convertStep, h35]

/-- Claim C5 as amended: when a transform invocation runs and exits
non-zero, that step is skipped and the previous stage's bytes pass
through unchanged; such exit failures never fail the capture (even when
all three steps fail, the raw capture bytes are returned); a capture
failure, by contrast, is fatal.  (Only a missing transform executable,
which raises, escapes this fail-soft policy.) -/
theorem c5_transform_exit_failure_skipped :
    (∀ (env : CaptureEnv) (args : List PyStr) (d : Bytes) (rc : Int)
        (out : Bytes),
        env.runConvert args d = .ran rc out → rc ≠ 0 →
        convertStep env args d = (.ok d, [.convertCmd args]))
    ∧ (∀ (env : CaptureEnv) (wid : PyStr) (out : Bytes) (s : ℚ)
        (cl cc : Option ℚ),
        env.runImport wid = .ran 0 out →
        (∀ args d, ∃ rc o, env.runConvert args d = .ran rc o ∧ rc ≠ 0) →
        (_capture_window env wid s cc cl).1 = .ok (some out))
    ∧ (_capture_window envCapFail ("0x1".toList) 1 none none).1
        = .error (.fileNotFoundError scrotStr) := by
  refine ⟨?_, ?_, by decide⟩
  · intro env args d rc out hro hrc
    simp [convertStep, hro, hrc]
  · intro env wid out s cl cc himp hconv
    have step : ∀ args d, convertStep env args d = (.ok d, [.convertCmd args]) := by
      intro args d
      obtain ⟨rc, o, hro, hrc⟩ := hconv args d
      simp [convertStep, hro, hrc]
    obtain ⟨rc3, o3, hro3, hrc3⟩ := hconv (resizeArgs s) out
    rcases cl with _ | cl <;> rcases cc with _ | cc <;>
      by_cases hs : s < 1 <;>
        first
          | (by_cases hcl : cl < 1 <;> by_cases hcc : cc < 1 <;>
              simp [_capture_window, himp, step, hs, hcl, hcc, hro3, hrc3])
          | (by_cases hcl : cl < 1 <;>
              simp [_capture_window, himp, step, hs, hcl, hro3, hrc3])
          | (by_cases hcc : cc < 1 <;>
              simp [_capture_window, himp, step, hs, hcc, hro3, hrc3])
          | simp [_capture_window, himp, step, hs, hro3, hrc3]

/-- Witness for C5's amended statement: a skipped failing step, and the
full pipeline passing raw bytes through when every transform exits
non-zero. -/
theorem c5_transform_exit_failure_skipped_witness :
    convertStep envConvFails [] [5] = (.ok [5], [.convertCmd []])
    ∧ (_capture_window envConvFails ("0x1".toList) (1/2) (some (4/5))
        (some (3/5))).1 = .ok (some [5]) :=
  ⟨c5_transform_exit_failure_skipped.1 envConvFails [] [5] 1 [] rfl
     (by decide),
   c5_transform_exit_failure_skipped.2.1 envConvFails ("0x1".toList) [5]
     (1/2) (some (3/5)) (some (4/5)) rfl
     (fun args d => ⟨1, [], rfl, by decide⟩)⟩

/-- Claim C1 is violated by the code: when the `import` executable is
missing, `subprocess.run` raises `FileNotFoundError` before any return
code is examined, so the scrot fallback is never attempted (the call
trace holds only the import attempt) and the exception propagates
uncaught through `_internal_capture` - no structured result is
produced.  The third conjunct evaluates the full tool body on a resolved
window and shows the exception escaping it. -/
theorem c1_missing_import_exe_raises :
    (_capture_window envImportMissing ("0x2c00007".toList) 1 none none).1
        = .error (.fileNotFoundError importStr)
    ∧ (_capture_window envImportMissing ("0x2c00007".toList) 1 none none).2.calls
        = [.importCmd ("0x2c00007".toList)]
    ∧ _internal_capture lenvPrimary envImportMissing ("cluster".toList) 1
        none none = .error (.fileNotFoundError importStr) := by
  refine ⟨rfl, rfl, by decide⟩

/-- Claim C2 is violated by the code in one case: if the scrot executable
itself is missing, the temporary file created by NamedTemporaryFile
before the scrot invocation is left on disk while `FileNotFoundError`
propagates.  The second half shows the claimed behaviour in the case
where scrot does run: the temporary file is created, read and deleted,
and its content returned. -/
theorem c2_missing_scrot_exe_leaks_tmpfile :
    ((_capture_window envScrotMissing ("0x1".toList) 1 none none).2.tmpCreated
          = true
      ∧ (_capture_window envScrotMissing ("0x1".toList) 1 none none).2.tmpOnDisk
          = true
      ∧ (_capture_window envScrotMissing ("0x1".toList) 1 none none).1
          = .error (.fileNotFoundError scrotStr))
    ∧ ((_capture_window envScrotOk ("0x1".toList) 1 none none).1
          = .ok (some [7, 7])
      ∧ (_capture_window envScrotOk ("0x1".toList) 1 none none).2.tmpCreated
          = true
      ∧ (_capture_window envScrotOk ("0x1".toList) 1 none none).2.tmpOnDisk
          = false) := by
  exact ⟨⟨rfl, rfl, rfl⟩, ⟨rfl, rfl, rfl⟩⟩

/-! ## Claims about explorer navigation -/

set_option maxRecDepth 8192 in
/-- Claim C7: a page outside the allow-list makes `qml_explorer_navigate`
return the local failure - whose message contains every valid page name -
without consulting the transport at all (the result is the same for every
transport); a page in the allow-list forwards the navigate request to the
transport. -/
theorem c7_navigate_allowlist {α : Type} :
    (∀ page : PyStr, EXPLORER_PAGES.contains page = false →
        (∀ send send' : NavRequest → α,
            qml_explorer_navigate send page
              = qml_explorer_navigate send' page)
        ∧ (∀ send : NavRequest → α,
            qml_explorer_navigate send page
              = .localFailure (invalidPageMsg page))
        ∧ (∀ p ∈ EXPLORER_PAGES,
            containsSub p (invalidPageMsg page) = true))
    ∧ (∀ (page : PyStr) (send : NavRequest → α),
        EXPLORER_PAGES.contains page = true →
        qml_explorer_navigate send page
          = .remote (send ⟨navigateStr, page⟩)) := by
  constructor
  · intro page hpage
    have hnot : page ∉ EXPLORER_PAGES := by simpa using hpage
    refine ⟨?_, ?_, ?_⟩
    · intro send send'
      simp [qml_explorer_navigate, hnot]
    · intro send
      simp [qml_explorer_navigate, hnot]
    · intro p hp
      have hall : EXPLORER_PAGES.all
          (fun q => containsSub q (("'. Valid pages: ".toList)
            ++ (EXPLORER_PAGES.intersperse (", ".toList)).flatten)) = true := by
        decide
      have hbase := List.all_eq_true.mp hall p hp
      have h2 := containsSub_append_left p page _ hbase
      have h3 := containsSub_append_left p ("Invalid page '".toList) _ h2
      simpa [invalidPageMsg] using h3
  · intro page send hpage
    have hmem : page ∈ EXPLORER_PAGES := by simpa using hpage
    simp [qml_explorer_navigate, hmem]

/-- Witness for C7: an invalid page yields the local failure under a
counting transport, and a valid page is forwarded. -/
theorem c7_navigate_allowlist_witness :
    @qml_explorer_navigate Nat (fun _ => 0) ("NotARealPage".toList)
        = .localFailure (invalidPageMsg ("NotARealPage".toList))
    ∧ @qml_explorer_navigate Nat (fun _ => 7) ("Welcome".toList)
        = .remote 7 :=
  ⟨((@c7_navigate_allowlist Nat).1 ("NotARealPage".toList)
      (by decide)).2.1 _,
   (@c7_navigate_allowlist Nat).2 ("Welcome".toList) (fun _ => 7)
     (by decide)⟩
